import Mathlib

/-!
Verification of the StyleGAN2 training loop in `train.py`
(repository cs-stylgan-edited).

The development shallowly embeds the parts of `train.py` that the
claims are about:

* the parameter-freeze bookkeeping (`requires_grad`, the freeze branch
  ladder of the discriminator and generator phases),
* the iteration / early-exit control flow of the `for idx in
  range(num_iterations)` loop,
* the checkpoint start-iteration parse in `__main__`,
* the per-iteration sequence of backward passes and optimizer steps as
  a trace of events, with the gated R1 and path-length regularizers,
* the EMA `accumulate` update and the raw-module selection,
* the adaptive-augmentation controller construction and the evolution
  of `ada_aug_p`,
* the stored/reported `r1` entry of the loss dictionary,
* the logistic discriminator loss over real-valued predictions.

Scalar tensor values that the loop consumes from the external autodiff
engine (losses, penalties, predictions) are rational inputs; the real
analysis of the logistic loss lives over `ℝ`.
-/

namespace StyleGanTrain

/-! ### String helpers (Python substring / split semantics) -/

/-- Boolean test that the first character list is a prefix of the second. -/
def listPrefixB : List Char → List Char → Bool
  | [], _ => true
  | _ :: _, [] => false
  | a :: as, b :: bs => a == b && listPrefixB as bs

/-- Boolean substring search: does `pat` occur inside the second list? -/
def containsAux (pat : List Char) : List Char → Bool
  | [] => listPrefixB pat []
  | c :: rest => listPrefixB pat (c :: rest) || containsAux pat rest

/-- Python `pat in s` substring containment on strings. -/
def strContains (s pat : String) : Bool :=
  containsAux pat.toList s.toList

/-- Split a character list at every occurrence of the separator
(Python `str.split(sep)` on a one-character separator). -/
def splitOnChar (sep : Char) (cs : List Char) : List (List Char) :=
  cs.foldr
    (fun c acc =>
      match acc with
      | [] => [[c]]
      | cur :: rest => if c == sep then [] :: cur :: rest else (c :: cur) :: rest)
    [[]]

/-! ### The start-iteration parse of `__main__` (train.py lines 664-676)

`args.start_iter` is initialised to `0`; if a checkpoint path is given,
the code runs
`args.start_iter = int(os.path.split('_')[-1].split('.')[0])`
inside `try ... except ValueError: pass`.  Note the parse is applied to
the string literal `'_'`, not to the checkpoint filename. -/

/-- `os.path.split(p)[-1]`: the component after the last slash. -/
def osPathSplitTail (p : String) : String :=
  String.mk ((splitOnChar '/' p.toList).getLastD p.toList)

/-- `s.split('.')[0]`: the part of `s` before the first dot. -/
def firstDotField (s : String) : String :=
  String.mk ((splitOnChar '.' s.toList).headD [])

/-- Strip leading and trailing whitespace, as Python `int()` does. -/
def stripWS (cs : List Char) : List Char :=
  ((cs.dropWhile Char.isWhitespace).reverse.dropWhile Char.isWhitespace).reverse

/-- Value of a nonempty digit list read in base 10. -/
def digitsToNat (cs : List Char) : Nat :=
  cs.foldl (fun acc c => 10 * acc + (c.toNat - Char.toNat '0')) 0

/-- Python `int(s)`: optional sign followed by at least one decimal
digit, surrounding whitespace ignored; `none` models `ValueError`. -/
def pyInt (s : String) : Option Int :=
  match stripWS s.toList with
  | [] => none
  | '+' :: rest =>
      if !rest.isEmpty && rest.all Char.isDigit then some (digitsToNat rest) else none
  | '-' :: rest =>
      if !rest.isEmpty && rest.all Char.isDigit then some (-(digitsToNat rest : Int)) else none
  | cs =>
      if cs.all Char.isDigit then some (digitsToNat cs) else none

/-- The argument the code hands to `int(...)` when deriving the resume
iteration: `os.path.split('_')[-1].split('.')[0]` (train.py line 672). -/
def startIterParseInput : String :=
  firstDotField (osPathSplitTail "_")

/-- The start iteration as computed at startup: `0` when no checkpoint
is given; with a checkpoint, the parsed value on success, and the
initial `0` when the parse raises `ValueError` (swallowed by
`except ValueError: pass`). -/
def startIterOf (ckpt : Option String) : Int :=
  match ckpt with
  | none => 0
  | some _ =>
      match pyInt startIterParseInput with
      | some n => n
      | none => 0

/-! ### Loop control flow (train.py lines 137, 172-179)

`num_iterations = iter + start_iter`; the loop runs
`for idx in range(num_iterations)`, sets `i = idx + start_iter`, and
at the top of every iteration breaks out when `i > args.iter`.  The
list below collects the values of `i` for which the iteration body
actually executes. -/

/-- The iteration indices `i` whose body executes before the
early-exit `break` fires. -/
def loopIters (start_iter iter : Nat) : List Nat :=
  ((List.range (iter + start_iter)).map (fun idx => idx + start_iter)).takeWhile
    (fun i => i ≤ iter)

/-! ### Parameter freeze bookkeeping (train.py lines 47-50, 185-226, 293-326)

A network is a list of named parameters with their `requires_grad`
flags.  `requires_grad model flag target` mirrors the source helper:
it sets `flag` on every parameter whose name contains the target
substring, or on all parameters when no target is given. -/

/-- Named parameters with their `requires_grad` flags. -/
abbrev Params := List (String × Bool)

/-- train.py lines 47-50: set the `requires_grad` flag on every
parameter whose name contains `target` (all parameters when `target`
is `none`). -/
def requires_grad (model : Params) (flag : Bool) (target : Option String) : Params :=
  model.map fun p =>
    match target with
    | none => (p.1, flag)
    | some t => if strContains p.1 t then (p.1, flag) else p

/-- Modelled from the spec: the generator's total layer count, derived
from the log2 image resolution by the StyleGAN2 convention the spec
appeals to in section 4.1 (layer index decreases as resolution
decreases; `model.py` is not part of the sources). -/
def numLayers (log_size : Nat) : Nat := 2 * (log_size - 2) + 1

/-- Modelled from the spec: one representative parameter name per named
generator submodule — the style mapping network, the constant input,
the initial convolution and RGB head, and the indexed `convs.i` /
`to_rgbs.i` blocks whose indices increase with resolution
(`model.py` is not part of the sources; the index vocabulary is the one
train.py itself targets). -/
def genParamNames (log_size : Nat) : List String :=
  ["style.1.weight", "input.input", "conv1.conv.weight", "to_rgb1.conv.weight"]
    ++ (List.range (2 * (log_size - 2))).map
        (fun k => "convs." ++ toString k ++ ".conv.weight")
    ++ (List.range (log_size - 2)).map
        (fun k => "to_rgbs." ++ toString k ++ ".conv.weight")

/-- Fresh parameters start trainable (the PyTorch default). -/
def initFlags (names : List String) : Params := names.map fun n => (n, true)

/-- The three targeted `requires_grad` calls per frozen layer index,
iterated for `layer in range(freezeG)` (train.py lines 196-199 with
`flag = False`, lines 295-298 with `flag = True`):
`convs.{num_layers-2-2*layer}`, `convs.{num_layers-3-2*layer}` and
`to_rgbs.{log_size-3-layer}`. -/
def freezeGBlock (model : Params) (flag : Bool) (freezeG : Nat) (log_size : Nat) : Params :=
  (List.range freezeG).foldl
    (fun ps layer =>
      let i1 : Int := (numLayers log_size : Int) - 2 - 2 * (layer : Int)
      let i2 : Int := (numLayers log_size : Int) - 3 - 2 * (layer : Int)
      let i3 : Int := (log_size : Int) - 3 - (layer : Int)
      let ps1 := requires_grad ps flag (some ("convs." ++ toString i1))
      let ps2 := requires_grad ps1 flag (some ("convs." ++ toString i2))
      requires_grad ps2 flag (some ("to_rgbs." ++ toString i3)))
    model

/-! ### Configuration (the argparse surface of `__main__`) -/

/-- The configuration options the embedded loop logic reads.  Integer
options that may be negative sentinel values (`freezeG`, `freezeD`,
`structure_loss`, `freezeStyle`) are `Int`; float options are `ℚ`. -/
structure Config where
  iter : Nat
  start_iter : Nat
  batch : Nat
  d_reg_every : Nat
  g_reg_every : Nat
  path_batch_shrink : Nat
  r1 : ℚ
  path_regularize : ℚ
  mixing : ℚ
  augment : Bool
  augment_p : ℚ
  ada_target : ℚ
  ada_length : Nat
  ada_every : Nat
  freezeD : Int
  freezeG : Int
  structure_loss : Int
  freezeStyle : Int
  freezeFC : Bool
  distributed : Bool
deriving DecidableEq

/-- The argparse defaults of `__main__` (single process, no resume). -/
def defaultConfig : Config where
  iter := 80
  start_iter := 0
  batch := 16
  d_reg_every := 16
  g_reg_every := 4
  path_batch_shrink := 2
  r1 := 10
  path_regularize := 2
  mixing := 9 / 10
  augment := false
  augment_p := 0
  ada_target := 3 / 5
  ada_length := 500000
  ada_every := 256
  freezeD := -1
  freezeG := -1
  structure_loss := -1
  freezeStyle := -1
  freezeFC := false
  distributed := false

/-- Generator `requires_grad` flags after the discriminator-phase
freeze ladder: the blanket `requires_grad(generator, False)` of line
185 followed by the generator half of the branch on lines 194-226. -/
def dPhaseGenFlags (cfg : Config) (log_size : Nat) (model : Params) : Params :=
  let ps := requires_grad model false none
  if 0 < cfg.freezeG ∧ 0 < cfg.freezeD then
    freezeGBlock ps false cfg.freezeG.toNat log_size
  else if 0 < cfg.freezeG then
    freezeGBlock ps false cfg.freezeG.toNat log_size
  else if 0 < cfg.freezeD then
    requires_grad ps false none
  else
    requires_grad ps false none

/-- Generator `requires_grad` flags after the generator-phase freeze
ladder (train.py lines 293-326), applied to the flags as the
discriminator phase left them: with `freezeG > 0` only the targeted
high-index layers are set back to `True`; otherwise the whole
generator is unfrozen. -/
def gPhaseGenFlags (cfg : Config) (log_size : Nat) (model : Params) : Params :=
  if 0 < cfg.freezeG ∧ 0 < cfg.freezeD then
    freezeGBlock model true cfg.freezeG.toNat log_size
  else if 0 < cfg.freezeG then
    freezeGBlock model true cfg.freezeG.toNat log_size
  else if 0 < cfg.freezeD then
    requires_grad model true none
  else
    requires_grad model true none

/-- Generator flags in force at the `g_loss.backward(); g_optim.step()`
of line 356-357: the initial flags taken through the discriminator
phase and then the generator phase.  `d_optim` holds no generator
parameter and `g_optim.step()` moves exactly the parameters that are
trainable here (and received a gradient), so these flags decide which
generator parameters move in one D+G phase pair. -/
def genFlagsAtGStep (cfg : Config) (log_size : Nat) : Params :=
  gPhaseGenFlags cfg log_size
    (dPhaseGenFlags cfg log_size (initFlags (genParamNames log_size)))

/-- Names of the parameters currently marked trainable. -/
def trainableNames (ps : Params) : List String :=
  (ps.filter fun p => p.2).map fun p => p.1

/-- The recorded flag of a named parameter. -/
def flagOf (ps : Params) (n : String) : Option Bool :=
  (ps.find? fun p => p.1 == n).map fun p => p.2

/-! ### The per-iteration backward/step trace (train.py lines 181-388)

The loop body alternates backward passes and optimizer steps in a
fixed order.  The scalar values the external autodiff engine produces
on a given iteration are inputs; the trace records which backward
passes and steps run, with the exact scalar expression each backward
pass is taken on. -/

/-- Scalar values computed by the external networks on one iteration:
the discriminator loss, the generator loss, the R1 penalty and the
anchor `real_pred[0]`, the path penalty and the anchor pixel
`fake_img[0, 0, 0, 0]`. -/
structure IterInputs where
  d_loss : ℚ
  g_loss : ℚ
  r1_penalty : ℚ
  real_pred0 : ℚ
  path_penalty : ℚ
  fake_pixel : ℚ
deriving DecidableEq

/-- One observable action of the loop body. -/
inductive Event where
  | backD : ℚ → Event
  | stepD : Event
  | backG : ℚ → Event
  | stepG : Event
  | tuneAda : Event
  | emaUpdate : Event
deriving DecidableEq

/-- Is this a discriminator-side backward pass? -/
def isBackD : Event → Bool
  | .backD _ => true
  | _ => false

/-- Is this a generator-side backward pass? -/
def isBackG : Event → Bool
  | .backG _ => true
  | _ => false

/-- Is this the EMA update? -/
def isEma : Event → Bool
  | .emaUpdate => true
  | _ => false

/-- The scalar the gated R1 backward pass is taken on (train.py line
281): `args.r1 / 2 * r1_loss * args.d_reg_every + 0 * real_pred[0]`. -/
def r1BackwardValue (cfg : Config) (inp : IterInputs) : ℚ :=
  cfg.r1 / 2 * inp.r1_penalty * (cfg.d_reg_every : ℚ) + 0 * inp.real_pred0

/-- train.py line 363: `max(1, args.batch // args.path_batch_shrink)`. -/
def path_batch_size (cfg : Config) : Nat :=
  max 1 (cfg.batch / cfg.path_batch_shrink)

/-- train.py lines 372-375: the weighted path loss, with the
zero-multiplied anchor pixel added when `args.path_batch_shrink` is
truthy. -/
def weightedPathLoss (cfg : Config) (inp : IterInputs) : ℚ :=
  let w := cfg.path_regularize * (cfg.g_reg_every : ℚ) * inp.path_penalty
  if cfg.path_batch_shrink ≠ 0 then w + 0 * inp.fake_pixel else w

/-- The ordered backward/step trace of one loop-body execution at
iteration index `i` (train.py lines 258-388): the discriminator update,
the adaptive-augmentation tune when active, the R1 regularizer when
`i % d_reg_every == 0`, the generator update, the path-length
regularizer when `freezeG < 0 and i % g_reg_every == 0`, and the
unconditional EMA update. -/
def iterTrace (cfg : Config) (i : Nat) (inp : IterInputs) : List Event :=
  [Event.backD inp.d_loss, Event.stepD]
    ++ (if cfg.augment = true ∧ cfg.augment_p = 0 then [Event.tuneAda] else [])
    ++ (if i % cfg.d_reg_every = 0 then
          [Event.backD (r1BackwardValue cfg inp), Event.stepD]
        else [])
    ++ [Event.backG inp.g_loss, Event.stepG]
    ++ (if cfg.freezeG < 0 ∧ i % cfg.g_reg_every = 0 then
          [Event.backG (weightedPathLoss cfg inp), Event.stepG]
        else [])
    ++ [Event.emaUpdate]

/-! ### EMA tracking (train.py lines 53-58, 154-160, 388) -/

/-- train.py lines 53-58: for every parameter name of the shadow
network, `par1[k].data.mul_(decay).add_(par2[k].data, alpha=1-decay)`.
Networks are valuations of parameter names; `keys` is the shadow
network's name set. -/
def accumulate (par1 par2 : String → ℚ) (keys : List String) (decay : ℚ) :
    String → ℚ :=
  fun k => if k ∈ keys then par1 k * decay + par2 k * (1 - decay) else par1 k

/-- A `DistributedDataParallel` wrapper holding the raw module. -/
structure DDPWrapped (α : Type) where
  module : α

/-- train.py lines 154-160: the generator the EMA update reads from —
`generator.module` when distributed (the raw module inside the
wrapper), the generator itself otherwise. -/
def selectGModule {α : Type} (distributed : Bool) (g : α) : α :=
  if distributed then (DDPWrapped.mk g).module else g

/-! ### Adaptive augmentation (train.py lines 163-167, 262-264) -/

/-- Modelled from the spec: the adaptive augmentation controller of
`non_leaking.py` (not among the sources).  Per spec section 4.3 it
accumulates the running `sign(real_prediction)` statistic over a
window of `update_every` iterations and adjusts the augmentation
probability each time the window fills; the constructor stores the
target, the adaptation length and the update interval it is given. -/
structure AdaptiveAugment where
  ada_aug_target : ℚ
  ada_aug_len : Nat
  update_every : Nat
deriving DecidableEq

/-- train.py lines 166-167: the controller is constructed only when
`args.augment and args.augment_p == 0`, as
`AdaptiveAugment(args.ada_target, args.ada_length, 8, device)` —
the update interval passed is the literal `8`. -/
def adaAugmentOf (cfg : Config) : Option AdaptiveAugment :=
  if cfg.augment = true ∧ cfg.augment_p = 0 then
    some (AdaptiveAugment.mk cfg.ada_target cfg.ada_length 8)
  else none

/-- train.py line 163: `ada_aug_p = args.augment_p if args.augment_p > 0
else 0.0`. -/
def adaAugPInit (cfg : Config) : ℚ :=
  if 0 < cfg.augment_p then cfg.augment_p else 0

/-- train.py lines 262-263: `ada_aug_p` is reassigned from the tuner
only when `args.augment and args.augment_p == 0`; otherwise it keeps
its current value. -/
def adaAugPStep (cfg : Config) (p tuned : ℚ) : ℚ :=
  if cfg.augment = true ∧ cfg.augment_p = 0 then tuned else p

/-- The value of `ada_aug_p` after `n` loop iterations, where
`tuned j` is whatever `ada_augment.tune` would return on iteration
`j`. -/
def adaAugPAt (cfg : Config) (tuned : Nat → ℚ) : Nat → ℚ
  | 0 => adaAugPInit cfg
  | n + 1 => adaAugPStep cfg (adaAugPAt cfg tuned n) (tuned n)

/-! ### The reported `r1` loss entry (train.py lines 147, 266-285)

`r1_loss` is initialised to a zero tensor before the loop and is
reassigned only inside the `d_regularize` branch; every iteration then
stores the current `r1_loss` into `loss_dict["r1"]`.  With
`start_iter = 0`, the entry reported at iteration `i` is the value
below (`penalty j` is the R1 penalty the branch would compute at
iteration `j`). -/

/-- The value held in `loss_dict["r1"]` at the end of iteration `i`. -/
def r1Stored (d_reg_every : Nat) (penalty : Nat → ℚ) : Nat → ℚ
  | 0 => if 0 % d_reg_every = 0 then penalty 0 else 0
  | n + 1 => if (n + 1) % d_reg_every = 0 then penalty (n + 1) else r1Stored d_reg_every penalty n

/-! ### The logistic discriminator loss (train.py lines 67-71) -/

/-- `F.softplus` on reals: `log(1 + exp x)`. -/
noncomputable def softplus (x : ℝ) : ℝ := Real.log (1 + Real.exp x)

/-- train.py lines 67-71:
`softplus(-real_pred).mean() + softplus(fake_pred).mean()` over
prediction vectors of length `n`. -/
noncomputable def d_logistic_loss {n : Nat} (real_pred fake_pred : Fin n → ℝ) : ℝ :=
  (∑ j, softplus (-(real_pred j))) / n + (∑ j, softplus (fake_pred j)) / n

/-! ### Concrete configurations and inputs used by the theorems -/

/-- The default configuration with `freezeG = 2` (the freeze scenario
of the spec, image size 256 so `log_size = 8`). -/
def cfgFreezeG2 : Config := { defaultConfig with freezeG := 2 }

/-- The default configuration with `freezeG = 0`. -/
def cfgFreezeG0 : Config := { defaultConfig with freezeG := 0 }

/-- The default configuration with augmentation enabled and an
adaptive probability (`augment_p = 0`). -/
def cfgAugmentAda : Config := { defaultConfig with augment := true }

/-- A concrete bundle of per-iteration scalar inputs. -/
def inp0 : IterInputs where
  d_loss := 3 / 2
  g_loss := 2
  r1_penalty := 5
  real_pred0 := 7
  path_penalty := 1 / 3
  fake_pixel := 11

/-! ## Helper lemmas -/

lemma length_loop_core (m : Nat) :
    ∀ n s : Nat,
      (((List.range n).map (fun idx => idx + s)).takeWhile (fun i => i ≤ m)).length
        = min n (m + 1 - s) := by
  intro n
  induction n with
  | zero => intro s; simp
  | succ k ih =>
      intro s
      rw [List.range_succ_eq_map]
      simp only [List.map_cons, List.map_map]
      have hmap : ((fun idx => idx + s) ∘ Nat.succ) = fun idx => idx + (s + 1) := by
        funext x
        simp only [Function.comp]
        omega
      rw [hmap, List.takeWhile_cons]
      by_cases h : s ≤ m
      · simp only [Nat.zero_add, h, decide_eq_true_eq, if_pos, List.length_cons, ih (s + 1)]
        omega
      · have hd : decide (0 + s ≤ m) = false := by simp [h]
        rw [hd]
        simp only [Bool.false_eq_true, if_false, List.length_nil]
        omega

lemma softplus_pos (x : ℝ) : 0 < softplus x := by
  have h := Real.exp_pos x
  exact Real.log_pos (by linarith)

lemma softplus_lt_softplus {x y : ℝ} (h : x < y) : softplus x < softplus y := by
  have hx := Real.exp_pos x
  exact Real.log_lt_log (by linarith) (by have := Real.exp_lt_exp.mpr h; linarith)

/-! ## Claims -/

/-- Claim C1, counterexample.  With `freezeG = 2` (image size 256, so
`log_size = 8`) the generator flags in force at the generator
optimizer step mark the highest-resolution block parameter
`convs.11.conv.weight` trainable — it moves — while the
lowest-resolution block parameter `convs.0.conv.weight` is frozen — it
stays unchanged.  This refutes the claim that the two
highest-resolution blocks are protected while lower-resolution blocks
move: the code does exactly the opposite. -/
theorem claim_C1_counterexample :
    flagOf (genFlagsAtGStep cfgFreezeG2 8) "convs.11.conv.weight" = some true
  ∧ flagOf (genFlagsAtGStep cfgFreezeG2 8) "convs.0.conv.weight" = some false := by
  decide

/-- Claim C1, amended.  For a run with `freezeG = 2` (size 256), during
the discriminator phase every generator parameter is frozen, and at
the generator step exactly the parameters of the two
highest-resolution generator blocks (`convs.8`-`convs.11`,
`to_rgbs.4`-`to_rgbs.5`) are trainable: after one full D+G phase pair
the two highest-resolution blocks have moved while all
lower-resolution blocks (and the mapping network, input and initial
convolution) are unchanged — a freeze depth of `k` makes exactly the
`k` highest-resolution blocks trainable and protects the rest. -/
theorem claim_C1 :
    ((dPhaseGenFlags cfgFreezeG2 8 (initFlags (genParamNames 8))).all fun p => !p.2) = true
  ∧ trainableNames (genFlagsAtGStep cfgFreezeG2 8)
      = ["convs.8.conv.weight", "convs.9.conv.weight", "convs.10.conv.weight",
         "convs.11.conv.weight", "to_rgbs.4.conv.weight", "to_rgbs.5.conv.weight"] := by
  decide

/-- Claim C2, counterexample.  With `start_iter = 2` and `iter = 3`
the loop body executes for `i = 2, 3` only — 2 iterations, not the
`(start_iter + iter) - start_iter = 3` the claim predicts — and the
loop terminates although `i` never reached `start_iter + iter = 5`:
termination is not governed by `i` exceeding `start_iter + iter`. -/
theorem claim_C2_counterexample :
    loopIters 2 3 = [2, 3]
  ∧ (loopIters 2 3).length ≠ (3 + 2) - 2
  ∧ ((loopIters 2 3).all fun j => j < 3 + 2) = true := by
  decide

/-- Claim C2, amended.  The early-exit check is evaluated at the top of
every iteration, but it compares `i` against `iter` alone (not
`start_iter + iter`): every executed iteration has `i ≤ iter`, and the
number of executed iterations is
`min (iter + start_iter) (iter + 1 - start_iter)` — in particular
`iter` when `start_iter = 0`, and `iter - start_iter + 1` when
`1 ≤ start_iter ≤ iter`. -/
theorem claim_C2 (start_iter iter : Nat) :
    (loopIters start_iter iter).length
      = min (iter + start_iter) (iter + 1 - start_iter)
  ∧ ((loopIters start_iter iter).all fun j => j ≤ iter) = true := by
  constructor
  · rw [loopIters]
    exact length_loop_core iter (iter + start_iter) start_iter
  · rw [List.all_eq_true]
    intro j hj
    simpa using List.mem_takeWhile_imp hj

/-- Claim C3.  The start-iteration parse is applied to the string
literal `'_'` rather than the checkpoint filename, so it raises
`ValueError` for every checkpoint path; the failure is swallowed by
the `except ValueError: pass` and the start iteration stays at its
default `0`, training proceeding regardless of the filename. -/
theorem claim_C3 (ckpt : Option String) :
    pyInt startIterParseInput = none ∧ startIterOf ckpt = 0 := by
  refine ⟨by decide, ?_⟩
  cases ckpt <;> rfl

/-- Claim C4.  The R1 backward passes of an iteration are exactly: the
main discriminator loss, plus — precisely when
`i % d_reg_every == 0` — a second discriminator backward pass taken on
`r1 / 2 * r1_penalty * d_reg_every + 0 * real_pred[0]` (the
zero-multiplied anchor term preserved), immediately followed by a
discriminator optimizer step. -/
theorem claim_C4 (cfg : Config) (i : Nat) (inp : IterInputs) :
    (iterTrace cfg i inp).filter isBackD
      = (if i % cfg.d_reg_every = 0 then
           [Event.backD inp.d_loss,
            Event.backD (cfg.r1 / 2 * inp.r1_penalty * (cfg.d_reg_every : ℚ)
              + 0 * inp.real_pred0)]
         else [Event.backD inp.d_loss])
  ∧ (i % cfg.d_reg_every = 0 →
      ∃ pre post,
        iterTrace cfg i inp
          = pre
            ++ [Event.backD (cfg.r1 / 2 * inp.r1_penalty * (cfg.d_reg_every : ℚ)
                  + 0 * inp.real_pred0),
                Event.stepD]
            ++ post) := by
  constructor
  · simp only [iterTrace, r1BackwardValue, List.filter_append]
    split_ifs with h1 h2 h3 <;> simp [isBackD]
  · intro h
    refine ⟨[Event.backD inp.d_loss, Event.stepD]
        ++ (if cfg.augment = true ∧ cfg.augment_p = 0 then [Event.tuneAda] else []),
      [Event.backG inp.g_loss, Event.stepG]
        ++ (if cfg.freezeG < 0 ∧ i % cfg.g_reg_every = 0 then
              [Event.backG (weightedPathLoss cfg inp), Event.stepG]
            else [])
        ++ [Event.emaUpdate], ?_⟩
    simp [iterTrace, h, r1BackwardValue]

/-- Claim C4, witness at the default configuration, iteration 0. -/
theorem claim_C4_witness :
    0 % defaultConfig.d_reg_every = 0
  ∧ ∃ pre post,
      iterTrace defaultConfig 0 inp0
        = pre
          ++ [Event.backD (defaultConfig.r1 / 2 * inp0.r1_penalty
                * (defaultConfig.d_reg_every : ℚ) + 0 * inp0.real_pred0),
              Event.stepD]
          ++ post :=
  ⟨rfl, (claim_C4 defaultConfig 0 inp0).2 rfl⟩

/-- Claim C5.  The generator-side backward passes of an iteration are
exactly: the main generator loss, plus — precisely when `freezeG < 0`
(freeze disabled) and `i % g_reg_every == 0` — a second backward pass
on the weighted path loss; the shrunk batch size is
`max 1 (batch // path_batch_shrink)`, and when the shrink factor is
nonzero the weighted path loss carries the zero-multiplied anchor term
on the fake-image pixel. -/
theorem claim_C5 (cfg : Config) (i : Nat) (inp : IterInputs) :
    (iterTrace cfg i inp).filter isBackG
      = (if cfg.freezeG < 0 ∧ i % cfg.g_reg_every = 0 then
           [Event.backG inp.g_loss, Event.backG (weightedPathLoss cfg inp)]
         else [Event.backG inp.g_loss])
  ∧ path_batch_size cfg = max 1 (cfg.batch / cfg.path_batch_shrink)
  ∧ (cfg.path_batch_shrink ≠ 0 →
      weightedPathLoss cfg inp
        = cfg.path_regularize * (cfg.g_reg_every : ℚ) * inp.path_penalty
          + 0 * inp.fake_pixel) := by
  refine ⟨?_, rfl, ?_⟩
  · simp only [iterTrace, List.filter_append]
    split_ifs with h1 h2 h3 <;> simp [isBackG]
  · intro h
    simp [weightedPathLoss, h]

/-- Claim C5, witness at the default configuration
(`path_batch_shrink = 2`). -/
theorem claim_C5_witness :
    defaultConfig.path_batch_shrink ≠ 0
  ∧ weightedPathLoss defaultConfig inp0
      = defaultConfig.path_regularize * (defaultConfig.g_reg_every : ℚ)
          * inp0.path_penalty + 0 * inp0.fake_pixel :=
  ⟨by decide, (claim_C5 defaultConfig 0 inp0).2.2 (by decide)⟩

/-- Claim C6, counterexample.  With augmentation enabled and an
adaptive probability, the controller is constructed with update
interval `8` — the hardcoded literal of train.py line 167 — while the
configured `ada_every` interval is `256`: the sign statistic window is
not the configured `ada_every` interval. -/
theorem claim_C6_counterexample :
    cfgAugmentAda.ada_every = 256
  ∧ (adaAugmentOf cfgAugmentAda).map (fun a => a.update_every) = some 8
  ∧ (8 : Nat) ≠ 256 := by
  decide

/-- Claim C6, amended.  The adaptive augmentation controller is
constructed exactly when augmentation is enabled and `augment_p == 0`,
with the hardcoded update window of 8 iterations (the configured
`ada_every` option is ignored); in every other configuration no
controller exists and `ada_aug_p` keeps its initial value for the
whole run. -/
theorem claim_C6 (cfg : Config) (tuned : Nat → ℚ) (n : Nat) :
    adaAugmentOf cfg
      = (if cfg.augment = true ∧ cfg.augment_p = 0 then
           some (AdaptiveAugment.mk cfg.ada_target cfg.ada_length 8)
         else none)
  ∧ (¬(cfg.augment = true ∧ cfg.augment_p = 0) →
      adaAugPAt cfg tuned n = adaAugPInit cfg) := by
  constructor
  · rfl
  · intro h
    induction n with
    | zero => rfl
    | succ k ih => rw [adaAugPAt, ih, adaAugPStep, if_neg h]

/-- Claim C6, witness at the default configuration (augmentation
disabled, so `ada_aug_p` is constant). -/
theorem claim_C6_witness :
    ¬(defaultConfig.augment = true ∧ defaultConfig.augment_p = 0)
  ∧ adaAugPAt defaultConfig (fun j => (j : ℚ) / 7) 5 = adaAugPInit defaultConfig :=
  ⟨by decide, (claim_C6 defaultConfig (fun j => (j : ℚ) / 7) 5).2 (by decide)⟩

/-- Claim C7.  For every decay `d` in `(0, 1)` and all networks with
matching parameter names, one `accumulate` application yields
`shadow' = shadow * d + source * (1 - d)` for every shadow parameter
name; the EMA update occurs exactly once per loop iteration in every
configuration (regardless of freeze mode); and the source handed to it
is the raw generator module, whether or not the run is distributed. -/
theorem claim_C7 (par1 par2 : String → ℚ) (keys : List String) (d : ℚ)
    (_h0 : 0 < d) (_h1 : d < 1) (k : String) (hk : k ∈ keys)
    (cfg : Config) (i : Nat) (inp : IterInputs) {α : Type} (dist : Bool) (g : α) :
    accumulate par1 par2 keys d k = par1 k * d + par2 k * (1 - d)
  ∧ (iterTrace cfg i inp).countP isEma = 1
  ∧ selectGModule dist g = g := by
  refine ⟨by simp [accumulate, hk], ?_, ?_⟩
  · simp only [iterTrace, List.countP_append]
    split_ifs <;> simp [isEma, List.countP_cons]
  · cases dist <;> rfl

/-- Claim C7, witness: decay `1/2`, a one-parameter network, the
default configuration at iteration 3, and a distributed run. -/
theorem claim_C7_witness :
    ((0 : ℚ) < 1 / 2 ∧ (1 / 2 : ℚ) < 1 ∧ "w" ∈ ["w"])
  ∧ accumulate (fun _ => 2) (fun _ => 4) ["w"] (1 / 2) "w"
      = (fun _ : String => (2 : ℚ)) "w" * (1 / 2)
        + (fun _ : String => (4 : ℚ)) "w" * (1 - 1 / 2)
  ∧ (iterTrace defaultConfig 3 inp0).countP isEma = 1
  ∧ selectGModule true (5 : Nat) = 5 := by
  refine ⟨⟨by norm_num, by norm_num, by simp⟩, ?_⟩
  exact claim_C7 (fun _ => 2) (fun _ => 4) ["w"] (1 / 2) (by norm_num) (by norm_num)
    "w" (by simp) defaultConfig 3 inp0 true 5

/-- Claim C8, counterexample.  With `d_reg_every = 4` and an R1 penalty
of `1` computed at iteration 0, the reported `r1` entry at iteration 1
is still `1` — nonzero although `1 % 4 ≠ 0`: the entry is stale, not
zero, on non-multiples. -/
theorem claim_C8_counterexample :
    r1Stored 4 (fun _ => 1) 1 = 1 ∧ ¬(1 % 4 = 0) ∧ (1 : ℚ) ≠ 0 := by
  refine ⟨rfl, by decide, one_ne_zero⟩

/-- Claim C8, amended.  With `d_reg_every = 4` (and `start_iter = 0`)
the `r1` entry of the loss dictionary at iteration `i` equals the R1
penalty computed at the most recent iteration divisible by 4, namely
`i - i % 4`: it is freshly computed exactly on multiples of 4 and
retains that stale value — in general nonzero — on every other
iteration. -/
theorem claim_C8 (penalty : Nat → ℚ) (i : Nat) :
    r1Stored 4 penalty i = penalty (i - i % 4) := by
  induction i with
  | zero => simp [r1Stored]
  | succ n ih =>
      rw [r1Stored]
      by_cases h : (n + 1) % 4 = 0
      · rw [if_pos h, h, Nat.sub_zero]
      · rw [if_neg h, ih]
        congr 1
        omega

/-- Claim C9.  For nonempty prediction vectors the discriminator loss
`d_logistic_loss x x = mean(softplus(-x)) + mean(softplus(x))` is
strictly positive; for a fixed fake prediction the loss strictly
decreases as the real prediction increases elementwise, and for a
fixed real prediction it strictly decreases as the fake prediction
decreases elementwise. -/
theorem claim_C9 {n : Nat} (hn : 0 < n) (x r r2 f f2 : Fin n → ℝ) :
    0 < d_logistic_loss x x
  ∧ ((∀ j, r j < r2 j) → d_logistic_loss r2 f < d_logistic_loss r f)
  ∧ ((∀ j, f2 j < f j) → d_logistic_loss r f2 < d_logistic_loss r f) := by
  haveI : Nonempty (Fin n) := ⟨⟨0, hn⟩⟩
  have hnpos : (0 : ℝ) < n := by exact_mod_cast hn
  refine ⟨?_, ?_, ?_⟩
  · have h1 : 0 < ∑ j, softplus (-(x j)) :=
      Finset.sum_pos (fun j _ => softplus_pos _) Finset.univ_nonempty
    have h2 : 0 < ∑ j, softplus (x j) :=
      Finset.sum_pos (fun j _ => softplus_pos _) Finset.univ_nonempty
    have := add_pos (div_pos h1 hnpos) (div_pos h2 hnpos)
    simpa [d_logistic_loss] using this
  · intro h
    have hsum : (∑ j, softplus (-(r2 j))) < ∑ j, softplus (-(r j)) := by
      refine Finset.sum_lt_sum_of_nonempty Finset.univ_nonempty ?_
      intro j _
      exact softplus_lt_softplus (by have := h j; linarith)
    have hdiv : (∑ j, softplus (-(r2 j))) / (n : ℝ) < (∑ j, softplus (-(r j))) / n :=
      div_lt_div_of_pos_right hsum hnpos
    simp only [d_logistic_loss]
    exact add_lt_add_right hdiv _
  · intro h
    have hsum : (∑ j, softplus (f2 j)) < ∑ j, softplus (f j) := by
      refine Finset.sum_lt_sum_of_nonempty Finset.univ_nonempty ?_
      intro j _
      exact softplus_lt_softplus (h j)
    have hdiv : (∑ j, softplus (f2 j)) / (n : ℝ) < (∑ j, softplus (f j)) / n :=
      div_lt_div_of_pos_right hsum hnpos
    simp only [d_logistic_loss]
    exact add_lt_add_left hdiv _

/-- Claim C9, witness: length-1 prediction vectors, real prediction
raised from 0 to 1, fake prediction lowered from 0 to -1. -/
theorem claim_C9_witness :
    ((0 : Nat) < 1
      ∧ (∀ j : Fin 1, (fun _ : Fin 1 => (0 : ℝ)) j < (fun _ : Fin 1 => (1 : ℝ)) j)
      ∧ (∀ j : Fin 1, (fun _ : Fin 1 => (-1 : ℝ)) j < (fun _ : Fin 1 => (0 : ℝ)) j))
  ∧ 0 < d_logistic_loss (fun _ : Fin 1 => (0 : ℝ)) (fun _ : Fin 1 => (0 : ℝ))
  ∧ d_logistic_loss (fun _ : Fin 1 => (1 : ℝ)) (fun _ : Fin 1 => (0 : ℝ))
      < d_logistic_loss (fun _ : Fin 1 => (0 : ℝ)) (fun _ : Fin 1 => (0 : ℝ))
  ∧ d_logistic_loss (fun _ : Fin 1 => (0 : ℝ)) (fun _ : Fin 1 => (-1 : ℝ))
      < d_logistic_loss (fun _ : Fin 1 => (0 : ℝ)) (fun _ : Fin 1 => (0 : ℝ)) := by
  have main := claim_C9 Nat.one_pos (fun _ : Fin 1 => (0 : ℝ)) (fun _ : Fin 1 => (0 : ℝ))
      (fun _ : Fin 1 => (1 : ℝ)) (fun _ : Fin 1 => (0 : ℝ)) (fun _ : Fin 1 => (-1 : ℝ))
  exact ⟨⟨Nat.one_pos, fun j => by norm_num, fun j => by norm_num⟩,
    main.1, main.2.1 (fun j => by norm_num), main.2.2 (fun j => by norm_num)⟩

/-- Claim C10.  For every run with `freezeG == 0` exactly, the
path-length regularization backward pass never executes on any
iteration (the gate requires `freezeG < 0`), even though the
generator-phase freeze ladder marks every generator parameter
trainable — `freezeG = 0` freezes no generator layers yet silently
disables path-length regularization. -/
theorem claim_C10 (cfg : Config) (log_size : Nat) (model : Params)
    (h : cfg.freezeG = 0) :
    ((gPhaseGenFlags cfg log_size model).all fun p => p.2) = true
  ∧ ∀ (i : Nat) (inp : IterInputs),
      (iterTrace cfg i inp).filter isBackG = [Event.backG inp.g_loss] := by
  have hpos : ¬ (0 < cfg.freezeG) := by rw [h]; exact lt_irrefl 0
  constructor
  · rw [gPhaseGenFlags, if_neg (fun hc => hpos hc.1), if_neg hpos]
    by_cases h2 : 0 < cfg.freezeD
    · rw [if_pos h2]
      simp [requires_grad]
    · rw [if_neg h2]
      simp [requires_grad]
  · intro i inp
    have hgate : ¬(cfg.freezeG < 0 ∧ i % cfg.g_reg_every = 0) := by
      rw [h]
      exact fun hc => absurd hc.1 (lt_irrefl 0)
    simp only [iterTrace, List.filter_append, if_neg hgate]
    split_ifs with h1 h2 <;> simp [isBackG]

/-- Claim C10, witness at the default configuration with
`freezeG = 0`, `log_size = 8`, iteration 7. -/
theorem claim_C10_witness :
    cfgFreezeG0.freezeG = 0
  ∧ ((gPhaseGenFlags cfgFreezeG0 8 (initFlags (genParamNames 8))).all fun p => p.2) = true
  ∧ (iterTrace cfgFreezeG0 7 inp0).filter isBackG = [Event.backG inp0.g_loss] :=
  ⟨rfl, (claim_C10 cfgFreezeG0 8 (initFlags (genParamNames 8)) rfl).1,
    (claim_C10 cfgFreezeG0 8 (initFlags (genParamNames 8)) rfl).2 7 inp0⟩

end StyleGanTrain
